import Mathlib

/-!
Verification of the password strength scoring engine (`app.py`).

The Python source is embedded shallowly:
* `str` becomes `String` (a sequence of Unicode code points, matching Python);
  the character classifiers `islower` / `isupper` / `isdigit` / `isalnum` are
  modelled by their ASCII behaviour (`Char.isLower`, …), which agrees with
  Python on all ASCII input — every concrete input used below is ASCII, and the
  universally quantified theorems do not depend on how individual characters
  are classified;
* Python `float` arithmetic is modelled by exact arithmetic (`ℝ` where the
  value is irrational — the entropy term — and `ℚ` where it is rational);
* Python `set` literals are modelled as `List`s in literal order; every
  theorem below that touches a set-driven loop is insensitive to iteration
  order;
* the network call `check_pwned` is abstracted as an `OracleOutcome`
  (success with a count, or failure = any raised exception), exactly the two
  ways the `try` block in `index` can resolve.
-/

/-- The set `BUILTIN_COMMON` of known weak passwords, in source literal order. -/
def BUILTIN_COMMON : List String :=
  ["123456", "password", "12345678", "qwerty", "abc123", "monkey", "letmein",
   "dragon", "111111", "baseball", "iloveyou", "trustno1", "1234567", "sunshine",
   "princess", "admin", "welcome", "football", "qazwsx", "password1"]

/-- The set `BUILTIN_DICT` of dictionary words, in source literal order. -/
def BUILTIN_DICT : List String :=
  ["password", "admin", "user", "login", "welcome", "love", "secret",
   "master", "hello", "service", "system", "pass", "qwerty"]

/-- Character translation of `LEET_MAP = str.maketrans("430157@$!", "aeloistas")`:
the i-th character of the first string maps to the i-th character of the second,
so `4→a, 3→e, 0→l, 1→o, 5→i, 7→s, @→t, $→a, !→s`. -/
def leetChar (c : Char) : Char :=
  if c = '4' then 'a'
  else if c = '3' then 'e'
  else if c = '0' then 'l'
  else if c = '1' then 'o'
  else if c = '5' then 'i'
  else if c = '7' then 's'
  else if c = '@' then 't'
  else if c = '$' then 'a'
  else if c = '!' then 's'
  else c

/-- The list `KEYBOARD_PATTERNS` from the source. -/
def KEYBOARD_PATTERNS : List String :=
  ["qwerty", "asdfgh", "zxcvbn", "1qaz2wsx", "qazwsx", "password"]

/-- Python `s.lower()` (ASCII model). -/
def pyLower (s : String) : String := ⟨s.data.map Char.toLower⟩

/-- Python substring test `needle in hay`. -/
def containsSub (needle hay : List Char) : Bool :=
  (List.range (hay.length + 1)).any fun i => needle.isPrefixOf (hay.drop i)

/-- Length of the longest common prefix of two character lists. -/
def commonPrefixLen : List Char → List Char → ℕ
  | a :: as, b :: bs => if a = b then commonPrefixLen as bs + 1 else 0
  | _, _ => 0

/-- Model of `difflib.SequenceMatcher.find_longest_match` with no junk (the
strings here are far below the 200-character autojunk threshold): the longest
matching block `(i, j, k)`, ties resolved to the earliest start in `a`, then in
`b` — realised by scanning `i` then `j` in ascending order and keeping the
first strict improvement. -/
def bestMatch (a b : List Char) : ℕ × ℕ × ℕ :=
  (List.range (a.length + 1)).foldl
    (fun acc i =>
      (List.range (b.length + 1)).foldl
        (fun acc2 j =>
          let k := commonPrefixLen (a.drop i) (b.drop j)
          if acc2.2.2 < k then (i, j, k) else acc2)
        acc)
    (0, 0, 0)

/-- Total number of matched characters over the blocks returned by
`SequenceMatcher.get_matching_blocks`: recursively split around the longest
matching block.  The fuel argument only serves termination; every call below
supplies enough fuel for the recursion to bottom out. -/
def smTotal : ℕ → List Char → List Char → ℕ
  | 0, _, _ => 0
  | fuel + 1, a, b =>
    let m := bestMatch a b
    if m.2.2 = 0 then 0
    else
      m.2.2 + smTotal fuel (a.take m.1) (b.take m.2.1)
        + smTotal fuel (a.drop (m.1 + m.2.2)) (b.drop (m.2.1 + m.2.2))

/-- Model of `difflib.SequenceMatcher(None, a, b).ratio()`:
`2*M / (len(a)+len(b))`, and `1.0` when both strings are empty. -/
def smSimilarity (a b : List Char) : ℚ :=
  if a.length + b.length = 0 then 1
  else 2 * (smTotal (a.length + b.length) a b : ℚ) / ((a.length : ℚ) + (b.length : ℚ))

/-- The test `SequenceMatcher(None, a, b).ratio() >= 0.78`, realised in
integer arithmetic: `2*M/(la+lb) ≥ 78/100 ⟺ 200*M ≥ 78*(la+lb)` (for
`la+lb = 0` both sides degenerate to true, matching `ratio() = 1.0 ≥ 0.78`).
The float comparison agrees with the exact one: `2.0*M/T` is correctly
rounded, and `2M/T = 78/100` would force `100·M = 39·T`, impossible for the
short dictionary words involved, so no value sits at the boundary. -/
def smRatioGeThreshold (a b : List Char) : Bool :=
  decide (78 * (a.length + b.length) ≤ 200 * smTotal (a.length + b.length) a b)

/-- Model of `contains_dictionary_word_fuzzy` (threshold fixed at its default
`0.78`, the only value the source ever passes): three escalating stages over
the dictionary — literal containment (similarity 1.0), containment after
`LEET_MAP` translation (similarity 0.95), whole-string similarity at least the
threshold. -/
def contains_dictionary_word_fuzzy (pw : String) (dictionary : List String) :
    Bool × String × ℚ :=
  let low := (pyLower pw).data
  match dictionary.find? (fun w => containsSub w.data low) with
  | some w => (true, w, 1)
  | none =>
    let leet_rev := low.map leetChar
    match dictionary.find? (fun w => containsSub w.data leet_rev) with
    | some w => (true, w, 95 / 100)
    | none =>
      match dictionary.find? (fun w => smRatioGeThreshold low w.data) with
      | some w => (true, w, smSimilarity low w.data)
      | none => (false, "", 0)

/-- A run of at least `need` consecutive equal characters whose first character
satisfies `p`, starting at some position of `s`. -/
def hasRunOf (need : ℕ) (p : Char → Bool) (s : List Char) : Bool :=
  (List.range s.length).any fun i =>
    match s.drop i with
    | [] => false
    | c :: rest =>
      p c && decide (need - 1 ≤ rest.length) && (rest.take (need - 1)).all fun d => d == c

/-- Model of `detect_repeat_patterns`: the regex `(.)\1{3,}` — some character
other than a newline (`.` does not match `\n`) repeated at least 4 times. -/
def detect_repeat_patterns (pw : String) : Bool × String :=
  if hasRunOf 4 (fun c => c != '\n') pw.data then (true, "repeated characters")
  else (false, "")

/-- Model of `detect_repeated_numbers`: the regex `(\d)\1{2,}` — some digit
repeated at least 3 times. -/
def detect_repeated_numbers (pw : String) : Bool :=
  hasRunOf 3 Char.isDigit pw.data

/-- Model of `detect_numeric_sequence`: containment of one of the ten fixed
four-digit runs. -/
def detect_numeric_sequence (pw : String) : Bool :=
  ["0123", "1234", "2345", "3456", "4567", "5678", "6789", "9876", "8765", "7654"].any
    fun pat => containsSub pat.data pw.data

/-- Model of `detect_keyboard_pattern`: case-insensitive containment of one of
the fixed keyboard-walk strings. -/
def detect_keyboard_pattern (pw : String) : Bool :=
  KEYBOARD_PATTERNS.any fun pat => containsSub pat.data (pyLower pw).data

/-- Python `any(c.islower() for c in pw)` (ASCII model). -/
def has_lower (pw : String) : Bool := pw.data.any Char.isLower

/-- Python `any(c.isupper() for c in pw)` (ASCII model). -/
def has_upper (pw : String) : Bool := pw.data.any Char.isUpper

/-- Python `any(c.isdigit() for c in pw)` (ASCII model). -/
def has_digit (pw : String) : Bool := pw.data.any Char.isDigit

/-- Python `any((not c.isalnum()) for c in pw)` (ASCII model). -/
def has_symbol (pw : String) : Bool := pw.data.any fun c => !c.isAlphanum

/-- Model of `estimate_charset_size`: fixed contributions 26/26/10/32 for the
four category flags, 500 for any character above code point 127, floored at 1. -/
def estimate_charset_size (pw : String) : ℕ :=
  max ((if has_lower pw then 26 else 0) + (if has_upper pw then 26 else 0)
    + (if has_digit pw then 10 else 0) + (if has_symbol pw then 32 else 0)
    + (if pw.data.any (fun c => 127 < c.toNat) then 500 else 0)) 1

/-- Model of `entropy_bits`: `len(pw) * math.log2(estimate_charset_size(pw))`,
with the float modelled as a real number. -/
noncomputable def entropy_bits (pw : String) : ℝ :=
  (pw.length : ℝ) * Real.logb 2 (estimate_charset_size pw)

/-- Python `int(x)` on a float: truncation toward zero. -/
noncomputable def pyInt (x : ℝ) : ℤ :=
  if 0 ≤ x then ⌊x⌋ else ⌈x⌉

/-- The local `cats` of `score_password_raw`: how many of the four character
categories are present. -/
def cats (pw : String) : ℕ :=
  (if has_lower pw then 1 else 0) + (if has_upper pw then 1 else 0)
    + (if has_digit pw then 1 else 0) + (if has_symbol pw then 1 else 0)

/-- The local `length_bonus` of `score_password_raw`:
`12 if len>=16 else 8 if len>=12 else 4 if len>=8 else 0`. -/
def length_bonus (pw : String) : ℤ :=
  if 16 ≤ pw.length then 12 else if 12 ≤ pw.length then 8
  else if 8 ≤ pw.length then 4 else 0

/-- The four missing-category penalties of `score_password_raw`
(10 points per absent category), accumulated in source order. -/
def missing_category_penalty (pw : String) : ℤ :=
  (if has_lower pw then 0 else 10) + (if has_upper pw then 0 else 10)
    + (if has_digit pw then 0 else 10) + (if has_symbol pw then 0 else 10)

/-- The missing-category reasons of `score_password_raw`, in source order. -/
def missing_category_reasons (pw : String) : List String :=
  (if has_lower pw then [] else ["missing lowercase"])
    ++ (if has_upper pw then [] else ["missing uppercase"])
    ++ (if has_digit pw then [] else ["missing digit"])
    ++ (if has_symbol pw then [] else ["missing special"])

/-- The total `penalties` accumulated by `score_password_raw`, term by term in
the order the source adds them. -/
def penalties_total (pw : String) : ℤ :=
  missing_category_penalty pw
    + (if pyLower pw ∈ BUILTIN_COMMON then 70 else 0)
    + (if (contains_dictionary_word_fuzzy pw BUILTIN_DICT).1 then 25 else 0)
    + (if (detect_repeat_patterns pw).1 then 20 else 0)
    + (if detect_repeated_numbers pw then 15 else 0)
    + (if detect_numeric_sequence pw then 15 else 0)
    + (if detect_keyboard_pattern pw then 18 else 0)
    + (if pw.length < 6 then 30 else 0)

/-- The `reasons` list accumulated by `score_password_raw`, appended in the
order the source appends them.  The dictionary reason is the f-string
`dictionary word '<w>'`. -/
def reasons_list (pw : String) : List String :=
  missing_category_reasons pw
    ++ (if pyLower pw ∈ BUILTIN_COMMON then ["common password"] else [])
    ++ (if (contains_dictionary_word_fuzzy pw BUILTIN_DICT).1 then
          ["dictionary word \x27" ++ (contains_dictionary_word_fuzzy pw BUILTIN_DICT).2.1 ++ "\x27"]
        else [])
    ++ (if (detect_repeat_patterns pw).1 then ["repeated pattern"] else [])
    ++ (if detect_repeated_numbers pw then ["repeated numbers"] else [])
    ++ (if detect_numeric_sequence pw then ["numeric sequence"] else [])
    ++ (if detect_keyboard_pattern pw then ["keyboard pattern"] else [])
    ++ (if pw.length < 6 then ["too short"] else [])

/-- The float `raw = base_score + (cats*5) + length_bonus - penalties` of
`score_password_raw`, where `base_score = min(ent/4*10, 60)`. -/
noncomputable def raw_formula (pw : String) : ℝ :=
  min (entropy_bits pw / 4 * 10) 60 + ((cats pw : ℤ) * 5 : ℤ) + (length_bonus pw : ℝ)
    - (penalties_total pw : ℝ)

/-- Model of `score_password_raw`: the `(raw, reasons, entropy)` triple.  The
empty password short-circuits to `(0, ["empty password"], 0.0)`; otherwise the
result is `max(0, min(100, int(raw)))` with the accumulated reasons and the
entropy estimate. -/
noncomputable def score_password_raw (pw : String) : ℤ × List String × ℝ :=
  if pw = "" then (0, ["empty password"], 0)
  else (max 0 (min 100 (pyInt (raw_formula pw))), reasons_list pw, entropy_bits pw)

/-- Mathematical round-half-to-even on a rational value — the behaviour of
Python `round`. -/
def pyRound (q : ℚ) : ℤ :=
  if q - (⌊q⌋ : ℚ) < 1 / 2 then ⌊q⌋
  else if 1 / 2 < q - (⌊q⌋ : ℚ) then ⌊q⌋ + 1
  else if ⌊q⌋ % 2 = 0 then ⌊q⌋ else ⌊q⌋ + 1

/-- Python `round(raw/10.0)` for an integer `raw`, realised in integer
arithmetic: with `f = raw / 10` (floor division) and `r = raw % 10 ∈ [0,10)`,
the value `raw/10` rounds down when `r < 5`, up when `r > 5`, and to the even
neighbour when `r = 5`.  This is exact for the float computation: halves are
dyadic (hence exactly representable), and every other `raw/10.0` lies at least
`0.1 − ε` away from a rounding boundary.  `pyRound_div10_eq` below proves this
definition equal to the mathematical rounding `pyRound` of `raw/10 : ℚ`. -/
def pyRound10 (raw : ℤ) : ℤ :=
  if raw % 10 < 5 then raw / 10
  else if 5 < raw % 10 then raw / 10 + 1
  else if (raw / 10) % 2 = 0 then raw / 10 else raw / 10 + 1

/-- The label table of `map_to_10`, in source order. -/
def LABELS : List String :=
  ["Very Weak", "Weak", "Weak", "Fair", "Fair", "Good", "Good", "Strong",
   "Strong", "Excellent", "Excellent"]

/-- Model of `map_to_10`: `val = max(0, min(10, int(round(raw/10.0))))` and the
label is the table entry at index `val`. -/
def map_to_10 (raw : ℤ) : ℤ × String :=
  let val := max 0 (min 10 (pyRound10 raw))
  (val, LABELS.getD val.toNat "")

/-- Model of `tips`: each advisory string is appended when its condition
holds, in source order; the MFA tip is appended unconditionally.  Python's
`if breach and breach>0` is false when `breach` is `None` or `0`. -/
def tips (pw : String) (reasons : List String) (raw : ℤ) (breach : Option ℕ) :
    List String :=
  (if pw.length < 12 then ["Use at least 12 characters."] else [])
    ++ (match breach with
        | some b =>
          if 0 < b then ["⚠ Found in " ++ toString b ++ " breaches. Never reuse it."]
          else []
        | none => [])
    ++ (if "missing uppercase" ∈ reasons ∨ "missing lowercase" ∈ reasons then
          ["Mix uppercase and lowercase letters."]
        else [])
    ++ (if "missing digit" ∈ reasons then ["Add numbers."] else [])
    ++ (if "missing special" ∈ reasons then ["Add special characters (!,@,#,$, etc.)"] else [])
    ++ (if raw < 50 then ["Consider a passphrase or password manager."] else [])
    ++ ["Enable MFA for important accounts."]

/-- Outcome of the breach-oracle call `check_pwned` inside the `try` block of
`index`: either it returns a count, or it raises (timeout, transport error,
malformed response) and the `except` branch runs. -/
inductive OracleOutcome
  | success : ℕ → OracleOutcome
  | failure : OracleOutcome

/-- The result dictionary built by `index` for a submitted password. -/
structure NormalizedResult where
  pw : String
  score : ℤ
  label : String
  reasons : List String
  entropy : ℝ
  breach : Option ℕ
  tips : List String

/-- Python `round(x, 1)` (round half to even at one decimal), on the real
model of the float. -/
noncomputable def pyRoundR (x : ℝ) : ℤ :=
  if x - (⌊x⌋ : ℝ) < 1 / 2 then ⌊x⌋
  else if 1 / 2 < x - (⌊x⌋ : ℝ) then ⌊x⌋ + 1
  else if ⌊x⌋ % 2 = 0 then ⌊x⌋ else ⌊x⌋ + 1

/-- Rounding to one decimal place, as `round(ent, 1)` in `index`. -/
noncomputable def round1 (x : ℝ) : ℝ := (pyRoundR (x * 10) : ℝ) / 10

/-- Model of the POST branch of `index` as the engine operation
`evaluate(password)` of the specification, with the breach oracle abstracted
by its outcome: compute `(raw, reasons, ent)`; on oracle success with a
positive count override `raw` to 0 and append `"found in breaches"`; on
oracle failure leave `raw` unchanged, set the breach count to the unknown
state and append `"leak-check failed"`; then normalize and attach tips. -/
noncomputable def evaluate (pw : String) (o : OracleOutcome) : NormalizedResult :=
  let r := score_password_raw pw
  match o with
  | OracleOutcome.success c =>
    if 0 < c then
      ⟨pw, (map_to_10 0).1, (map_to_10 0).2, r.2.1 ++ ["found in breaches"],
        round1 r.2.2, some c, tips pw (r.2.1 ++ ["found in breaches"]) 0 (some c)⟩
    else
      ⟨pw, (map_to_10 r.1).1, (map_to_10 r.1).2, r.2.1, round1 r.2.2, some c,
        tips pw r.2.1 r.1 (some c)⟩
  | OracleOutcome.failure =>
    ⟨pw, (map_to_10 r.1).1, (map_to_10 r.1).2, r.2.1 ++ ["leak-check failed"],
      round1 r.2.2, none, tips pw (r.2.1 ++ ["leak-check failed"]) r.1 none⟩

/-- Spec-side formula (from the specification text, for the refinement claim
C1): the length bonus bands `<8 → 0`, `8–11 → 4`, `12–15 → 8`, `≥16 → 12`. -/
def spec_length_bonus (pw : String) : ℤ :=
  if pw.length < 8 then 0 else if pw.length ≤ 11 then 4
  else if pw.length ≤ 15 then 8 else 12

/-- Spec-side formula (for C1): the total penalty is the sum of the penalties
of every triggered detector, with the weights listed in the specification. -/
def spec_penalties_total (pw : String) : ℤ :=
  (if pyLower pw ∈ BUILTIN_COMMON then 70 else 0)
    + (if (contains_dictionary_word_fuzzy pw BUILTIN_DICT).1 then 25 else 0)
    + (if (detect_repeat_patterns pw).1 then 20 else 0)
    + (if detect_repeated_numbers pw then 15 else 0)
    + (if detect_numeric_sequence pw then 15 else 0)
    + (if detect_keyboard_pattern pw then 18 else 0)
    + missing_category_penalty pw
    + (if pw.length < 6 then 30 else 0)

/-- Spec-side formula (for C1): `base + 5*category_count + length_bonus −
total_penalties` with `base = min(entropy/4*10, 60)`, truncated to an integer
and clamped to `[0, 100]`. -/
noncomputable def spec_raw_score (pw : String) : ℤ :=
  max 0 (min 100 (pyInt (min (entropy_bits pw / 4 * 10) 60 + 5 * (cats pw : ℝ)
    + (spec_length_bonus pw : ℝ) - (spec_penalties_total pw : ℝ))))

/-- Spec-side formula (for C2): `scaled = round(raw/10)` clamped to `[0,10]`. -/
def spec_scaled (raw : ℤ) : ℤ := max 0 (min 10 (pyRound ((raw : ℚ) / 10)))

/-- Spec-side label bands (for C2): `0 → Very Weak`, `1–2 → Weak`,
`3–4 → Fair`, `5–6 → Good`, `7–8 → Strong`, `9–10 → Excellent`. -/
def spec_label (v : ℤ) : String :=
  if v = 0 then "Very Weak" else if v ≤ 2 then "Weak" else if v ≤ 4 then "Fair"
  else if v ≤ 6 then "Good" else if v ≤ 8 then "Strong" else "Excellent"

theorem pyRound_div10_eq (raw : ℤ) : pyRound ((raw : ℚ) / 10) = pyRound10 raw := by
  have hraw : raw = 10 * (raw / 10) + raw % 10 := by omega
  have hr0 : 0 ≤ raw % 10 := by omega
  have hr10 : raw % 10 < 10 := by omega
  have hq : (raw : ℚ) / 10 = ((raw / 10 : ℤ) : ℚ) + ((raw % 10 : ℤ) : ℚ) / 10 := by
    rw [show ((raw : ℚ)) = ((10 * (raw / 10) + raw % 10 : ℤ) : ℚ) by exact_mod_cast congrArg Int.cast hraw]
    push_cast
    ring
  have hrq0 : (0 : ℚ) ≤ ((raw % 10 : ℤ) : ℚ) := by exact_mod_cast hr0
  have hrq10 : ((raw % 10 : ℤ) : ℚ) < 10 := by exact_mod_cast hr10
  have hfl : ⌊(raw : ℚ) / 10⌋ = raw / 10 := by
    rw [Int.floor_eq_iff]
    constructor
    · rw [hq]; linarith
    · rw [hq]; linarith
  have hsub : (raw : ℚ) / 10 - ((⌊(raw : ℚ) / 10⌋ : ℤ) : ℚ) = ((raw % 10 : ℤ) : ℚ) / 10 := by
    rw [hfl, hq]; ring
  have hc1 : (((raw % 10 : ℤ) : ℚ) / 10 < 1 / 2) ↔ (raw % 10 < 5) := by
    constructor
    · intro h
      have h2 : ((raw % 10 : ℤ) : ℚ) < 5 := by linarith
      exact_mod_cast h2
    · intro h
      have h2 : ((raw % 10 : ℤ) : ℚ) < 5 := by exact_mod_cast h
      linarith
  have hc2 : ((1 : ℚ) / 2 < ((raw % 10 : ℤ) : ℚ) / 10) ↔ (5 < raw % 10) := by
    constructor
    · intro h
      have h2 : (5 : ℚ) < ((raw % 10 : ℤ) : ℚ) := by linarith
      exact_mod_cast h2
    · intro h
      have h2 : (5 : ℚ) < ((raw % 10 : ℤ) : ℚ) := by exact_mod_cast h
      linarith
  unfold pyRound pyRound10
  rw [hsub, hfl]
  simp only [hc1, hc2]

theorem score_raw_eq (pw : String) (h : pw ≠ "") :
    (score_password_raw pw).1 = max 0 (min 100 (pyInt (raw_formula pw))) := by
  unfold score_password_raw
  rw [if_neg h]

theorem score_raw_nonneg (pw : String) : 0 ≤ (score_password_raw pw).1 := by
  by_cases h : pw = ""
  · subst h; decide
  · rw [score_raw_eq pw h]; exact le_max_left _ _

theorem score_raw_le (pw : String) : (score_password_raw pw).1 ≤ 100 := by
  by_cases h : pw = ""
  · subst h; decide
  · rw [score_raw_eq pw h]; exact max_le (by norm_num) (min_le_left _ _)

theorem map_fst_nonneg (raw : ℤ) : 0 ≤ (map_to_10 raw).1 := le_max_left _ _

theorem map_fst_le (raw : ℤ) : (map_to_10 raw).1 ≤ 10 :=
  max_le (by norm_num) (min_le_left _ _)

theorem labels_getD_eq (v : ℤ) (h0 : 0 ≤ v) (h1 : v ≤ 10) :
    LABELS.getD v.toNat "" = spec_label v := by
  interval_cases v <;> rfl

/-- C2: for every raw score, normalization returns `round(raw/10)` clamped to
`[0,10]`, and the label looked up in the fixed 11-entry table realises exactly
the bands 0 → Very Weak, 1–2 → Weak, 3–4 → Fair, 5–6 → Good, 7–8 → Strong,
9–10 → Excellent. -/
theorem claim_C2_normalization_bands (raw : ℤ) :
    map_to_10 raw = (spec_scaled raw, spec_label (spec_scaled raw)) := by
  have h0 : 0 ≤ spec_scaled raw := le_max_left _ _
  have h1 : spec_scaled raw ≤ 10 := max_le (by norm_num) (min_le_left _ _)
  have hpr : spec_scaled raw = max 0 (min 10 (pyRound10 raw)) := by
    unfold spec_scaled
    rw [pyRound_div10_eq]
  have h2 : map_to_10 raw
      = (max 0 (min 10 (pyRound10 raw)), LABELS.getD (max 0 (min 10 (pyRound10 raw))).toNat "") := rfl
  rw [h2, ← hpr, labels_getD_eq _ h0 h1]

/-- C9: normalization rounds half-way values to the nearest even integer: raw
45 gives 4, 65 gives 6 and 85 gives 8 (one below round-half-up), while 55 and
75 still give 6 and 8. -/
theorem claim_C9_round_half_even :
    (map_to_10 45).1 = 4 ∧ (map_to_10 65).1 = 6 ∧ (map_to_10 85).1 = 8 ∧
    (map_to_10 55).1 = 6 ∧ (map_to_10 75).1 = 8 := by
  decide

/-- C3: for every password and every oracle outcome, the raw score lies in
`[0,100]` and the normalized score of the final result lies in `[0,10]`. -/
theorem claim_C3_clamp_invariant (pw : String) (o : OracleOutcome) :
    0 ≤ (score_password_raw pw).1 ∧ (score_password_raw pw).1 ≤ 100 ∧
    0 ≤ (evaluate pw o).score ∧ (evaluate pw o).score ≤ 10 := by
  refine ⟨score_raw_nonneg pw, score_raw_le pw, ?_, ?_⟩ <;>
    cases o with
    | success c =>
      by_cases hc : 0 < c <;> simp [evaluate, hc, map_fst_nonneg, map_fst_le]
    | failure => simp [evaluate, map_fst_nonneg, map_fst_le]

theorem length_bonus_eq (pw : String) : length_bonus pw = spec_length_bonus pw := by
  unfold length_bonus spec_length_bonus
  split_ifs <;> omega

theorem penalties_total_eq (pw : String) : penalties_total pw = spec_penalties_total pw := by
  unfold penalties_total spec_penalties_total
  ring

/-- C1: for every non-empty password the raw score equals
`base + 5*category_count + length_bonus − total_penalties` clamped to
`[0,100]`, where `base = min(entropy/4*10, 60)`, the length bonus follows the
bands `<8 / 8–11 / 12–15 / ≥16 → 0/4/8/12`, and the total penalty is the sum
of the penalties of every triggered detector. -/
theorem claim_C1_raw_score_formula (pw : String) (h : pw ≠ "") :
    (score_password_raw pw).1 = spec_raw_score pw := by
  have key : raw_formula pw
      = min (entropy_bits pw / 4 * 10) 60 + 5 * (cats pw : ℝ)
        + (spec_length_bonus pw : ℝ) - (spec_penalties_total pw : ℝ) := by
    unfold raw_formula
    rw [length_bonus_eq, penalties_total_eq]
    push_cast
    ring
  rw [score_raw_eq pw h]
  unfold spec_raw_score
  rw [key]

/-- Witness for C1 at the concrete password `Abc1!`. -/
theorem claim_C1_raw_score_formula_witness :
    ("Abc1!" : String) ≠ "" ∧ (score_password_raw "Abc1!").1 = spec_raw_score "Abc1!" :=
  ⟨by decide, claim_C1_raw_score_formula "Abc1!" (by decide)⟩

/-- C10: for every non-empty password, the diversity bonus (`5` per present
category) and the four missing-category penalties (`10` per absent category)
jointly contribute `15*category_count − 40` to the raw sum, with
`category_count ≤ 4`. -/
theorem claim_C10_category_net_contribution (pw : String) (_h : pw ≠ "") :
    (cats pw : ℤ) * 5 - missing_category_penalty pw = 15 * (cats pw : ℤ) - 40
      ∧ cats pw ≤ 4 := by
  unfold cats missing_category_penalty
  cases hl : has_lower pw <;> cases hu : has_upper pw <;> cases hd : has_digit pw <;>
    cases hs : has_symbol pw <;> simp

/-- Witness for C10 at the concrete password `a`. -/
theorem claim_C10_category_net_contribution_witness :
    ("a" : String) ≠ ""
      ∧ ((cats "a" : ℤ) * 5 - missing_category_penalty "a" = 15 * (cats "a" : ℤ) - 40
        ∧ cats "a" ≤ 4) :=
  ⟨by decide, claim_C10_category_net_contribution "a" (by decide)⟩

/-- C4: whenever the breach oracle succeeds with a positive count, the raw
score is overridden to 0 before normalization and the reason
`found in breaches` is appended, so the final result has score 0 and label
`Very Weak` regardless of the structurally computed raw score. -/
theorem claim_C4_breach_override (pw : String) (c : ℕ) (h : 0 < c) :
    (evaluate pw (OracleOutcome.success c)).score = 0 ∧
    (evaluate pw (OracleOutcome.success c)).label = "Very Weak" ∧
    (evaluate pw (OracleOutcome.success c)).reasons
      = (score_password_raw pw).2.1 ++ ["found in breaches"] := by
  have hm : map_to_10 0 = (0, "Very Weak") := by decide
  simp [evaluate, h, hm]

/-- Witness for C4 at the concrete password `abc` with breach count 1. -/
theorem claim_C4_breach_override_witness :
    0 < 1 ∧
      ((evaluate "abc" (OracleOutcome.success 1)).score = 0 ∧
      (evaluate "abc" (OracleOutcome.success 1)).label = "Very Weak" ∧
      (evaluate "abc" (OracleOutcome.success 1)).reasons
        = (score_password_raw "abc").2.1 ++ ["found in breaches"]) :=
  ⟨by decide, claim_C4_breach_override "abc" 1 (by decide)⟩

/-- C5: whenever the breach oracle fails, the engine still returns a complete
result: the breach count is the unknown state (`none`), the score is the
normalization of the structurally computed raw score with no breach override,
the reason list contains `leak-check failed`, and the tip list still includes
the final MFA tip. -/
theorem claim_C5_oracle_failure_degrades (pw : String) :
    (evaluate pw OracleOutcome.failure).breach = none ∧
    (evaluate pw OracleOutcome.failure).score = (map_to_10 (score_password_raw pw).1).1 ∧
    "leak-check failed" ∈ (evaluate pw OracleOutcome.failure).reasons ∧
    "Enable MFA for important accounts." ∈ (evaluate pw OracleOutcome.failure).tips := by
  refine ⟨rfl, rfl, ?_, ?_⟩
  · show "leak-check failed" ∈ (score_password_raw pw).2.1 ++ ["leak-check failed"]
    exact List.mem_append_right _ (List.mem_singleton.mpr rfl)
  · show "Enable MFA for important accounts."
      ∈ tips pw ((score_password_raw pw).2.1 ++ ["leak-check failed"]) (score_password_raw pw).1 none
    simp [tips]

theorem pyRoundR_zero : pyRoundR 0 = 0 := by
  unfold pyRoundR
  norm_num

theorem round1_zero : round1 0 = 0 := by
  unfold round1
  rw [zero_mul, pyRoundR_zero]
  norm_num

set_option maxRecDepth 100000 in
/-- C6 (evaluation of the code at the failing input `4dm1n`): the source's
`LEET_MAP` — `maketrans("430157@$!", "aeloistas")`, a scrambled anagram of the
standard leet substitutions — normalizes `4dm1n` to `admon` rather than
`admin`, and the fuzzy dictionary detector therefore produces no finding at
all, instead of the similarity-0.95 finding the claimed substitutions
`4→a, 3→e, 0→o, 1→i/l, 5→s, 7→t, @→a, $→s, !→i` would give. -/
theorem claim_C6_leet_map_eval :
    (pyLower "4dm1n").data.map leetChar = "admon".data ∧
    contains_dictionary_word_fuzzy "4dm1n" BUILTIN_DICT = (false, "", 0) := by
  exact ⟨by decide, by decide⟩

set_option maxRecDepth 1000000 in
/-- C7 (evaluation of the code at the input `P@ssw0rd123!`): because the
scrambled `LEET_MAP` sends `p@ssw0rd123!` to `ptsswlrdo2es`, the dictionary
detector never fires, so the reason list is empty — no dictionary-word finding
referencing `password` is produced, contradicting the claim; the part of the
claim about `123` is accurate: neither the numeric-sequence nor the
repeated-digit detector fires. -/
theorem claim_C7_dictionary_reason_eval :
    (evaluate "P@ssw0rd123!" (OracleOutcome.success 0)).reasons = [] ∧
    contains_dictionary_word_fuzzy "P@ssw0rd123!" BUILTIN_DICT = (false, "", 0) ∧
    detect_numeric_sequence "P@ssw0rd123!" = false ∧
    detect_repeated_numbers "P@ssw0rd123!" = false := by
  exact ⟨by decide, by decide, by decide, by decide⟩

/-- C8 counterexample: the route still runs the breach check for the empty
password, so when the oracle fails the reason list is
`["empty password", "leak-check failed"]`, not exactly `["empty password"]`. -/
theorem claim_C8_counterexample :
    (evaluate "" OracleOutcome.failure).reasons ≠ ["empty password"] := by
  decide

/-- C8 (amended): `evaluate` applied to the empty string yields score 0, label
`Very Weak` and entropy 0 for every oracle outcome, and the scoring stage
short-circuits to `(0, ["empty password"], 0)` past all detectors; the reason
list is exactly `["empty password"]` when the oracle succeeds with count 0,
while oracle failure appends `leak-check failed` and a positive count appends
`found in breaches`. -/
theorem claim_C8_empty_password_amended :
    (∀ o : OracleOutcome, (evaluate "" o).score = 0 ∧ (evaluate "" o).label = "Very Weak"
      ∧ (evaluate "" o).entropy = 0) ∧
    score_password_raw "" = (0, ["empty password"], (0 : ℝ)) ∧
    (evaluate "" (OracleOutcome.success 0)).reasons = ["empty password"] ∧
    (evaluate "" OracleOutcome.failure).reasons = ["empty password", "leak-check failed"] ∧
    (evaluate "" (OracleOutcome.success 1)).reasons = ["empty password", "found in breaches"] := by
  have hsc : score_password_raw "" = (0, ["empty password"], (0 : ℝ)) := rfl
  have hm : map_to_10 0 = (0, "Very Weak") := by decide
  refine ⟨?_, hsc, rfl, rfl, rfl⟩
  intro o
  cases o with
  | success c =>
    by_cases hc : 0 < c
    · simp [evaluate, hc, hsc, hm, round1_zero]
    · simp [evaluate, hc, hsc, hm, round1_zero]
  | failure => simp [evaluate, hsc, hm, round1_zero]
